import Mathlib

/-!
# Verification of the SANDAG 2016 Household Travel Behavior Survey data module

Shallow embedding of the claim-relevant parts of `python/hhtbs2016Data.py`
(class `SurveyData`) together with proofs about them.

Conventions used throughout:

* A pandas categorical/string cell is modelled as `Option String`
  (`none` models `NaN`/`pd.NA`).
* `Series.isin(vals)` on a cell is `catIsin`: a `NaN` cell is never in
  the list, so `~isin` is `true` on `NaN` cells.
* `Series != "x"` on a cell is `catNe`: a `NaN` cell compares as
  not-equal, i.e. `true`.
* An integer cell (nullable `Int8`/`Int16`) is `Option Int`; comparisons
  such as `s >= 1` or `s > 0` are `false` on `NaN` cells, matching
  pandas semantics.
* A chain of `df.loc[cond, cols] = "Not Applicable"` statements becomes a
  chain of record-update functions applied in source order.
-/

namespace HHTS

/-- A pandas categorical / string cell; `none` models `NaN`. -/
abbrev Cat := Option String

/-- The literal written by every manual recode in the module. -/
def na : Cat := some "Not Applicable"

/-- `cell.isin(vals)` for a single cell: `NaN` is never a member. -/
def catIsin (v : Cat) (vals : List String) : Bool :=
  match v with
  | some s => vals.contains s
  | none => false

/-- `cell != val` in pandas: `NaN != val` evaluates to `True`. -/
def catNe (v : Cat) (val : String) : Bool :=
  match v with
  | some s => !(s == val)
  | none => true

/-- `cell == val` in pandas: `NaN == val` evaluates to `False`. -/
def catEq (v : Cat) (val : String) : Bool :=
  match v with
  | some s => s == val
  | none => false

/-- `cell >= 1` on a nullable integer column: `False` on `NaN`. -/
def intGe1 (v : Option Int) : Bool :=
  match v with
  | some n => decide (1 ≤ n)
  | none => false

/-- `cell > 0` on a nullable integer column: `False` on `NaN`. -/
def intGt0 (v : Option Int) : Bool :=
  match v with
  | some n => decide (0 < n)
  | none => false

/-- `cell == 0` on a nullable integer column: `False` on `NaN`. -/
def intEq0 (v : Option Int) : Bool :=
  match v with
  | some n => decide (n = 0)
  | none => false

/-- `cell.isin(range(1, 11))` on a nullable integer column. -/
def intIn1to10 (v : Option Int) : Bool :=
  match v with
  | some n => decide (1 ≤ n ∧ n ≤ 10)
  | none => false

section Dedup

variable {α : Type} [DecidableEq α]

/-- Order-preserving de-duplication, translated from the source idiom
`points = []; [points.append(x) for x in line if x not in points]`
in `SurveyData.line_wkt`: a left fold that appends an element only when
it has not been seen before. -/
def distinctFirst (l : List α) : List α :=
  l.foldl (fun acc x => if x ∈ acc then acc else acc ++ [x]) []

/-- De-duplication keeping the first occurrence of each element, written
the way the spec describes it: keep the head, drop all its later
duplicates, recurse. Used to characterise `distinctFirst`. -/
def dedupFirstSpec : List α → List α
  | [] => []
  | x :: xs => x :: dedupFirstSpec (xs.filter (fun y => y ≠ x))
termination_by l => l.length
decreasing_by
  simp only [List.length_cons]
  exact Nat.lt_succ_of_le (List.length_filter_le _ _)

end Dedup

section LineWkt

/-- A shapely geometry as far as `SurveyData.line_wkt` builds one: either a
`Point` or a `LineString` through a list of vertices. -/
inductive Geometry (α : Type) : Type where
  | point (p : α)
  | lineString (ps : List α)
deriving DecidableEq

variable {α β : Type} [DecidableEq α]

/-- `shapely.ops.transform(transformer.transform, geom)`: apply the
coordinate transformer to every vertex of the geometry. -/
def transformG (tr : α → β) : Geometry α → Geometry β
  | Geometry.point p => Geometry.point (tr p)
  | Geometry.lineString ps => Geometry.lineString (ps.map tr)

/-- The body of the per-line loop of `SurveyData.line_wkt`, translated from
the source. `isValid` stands for shapely's `value.is_valid` check and `tr`
for the `pyproj` transformer from EPSG:4326 to the target crs; both are
external-library calls and enter as parameters. The WKT serialisation is
kept as the geometry itself (it is injective on these geometries).

Source structure: if the line is non-empty, duplicate vertices are removed
keeping the first instance (`distinctFirst`); with at least two distinct
vertices a `LineString` is built and transformed, with exactly one a
`Point`; the geometry is kept only if it passes the validity check,
otherwise `None` is appended. (The source's `len(points) == 0` fallthrough
inside the non-empty branch is unreachable, since de-duplicating a
non-empty line leaves at least one vertex.) An empty line yields `None`. -/
def line_wkt1 (isValid : Geometry β → Bool) (tr : α → β) (line : List α) :
    Option (Geometry β) :=
  if 0 < line.length then
    let points := distinctFirst line
    if 2 ≤ points.length then
      let value := transformG tr (Geometry.lineString points)
      if isValid value then some value else none
    else
      match points with
      | [p] =>
        let value := transformG tr (Geometry.point p)
        if isValid value then some value else none
      | _ => none
  else none

/-- `SurveyData.line_wkt`: the per-line computation mapped over the input
iterable of lines. -/
def line_wkt (isValid : Geometry β → Bool) (tr : α → β)
    (lines : List (List α)) : List (Option (Geometry β)) :=
  lines.map (line_wkt1 isValid tr)

end LineWkt

section Trips

/-- One row of the trip list inside `SurveyData.trips`, restricted to the
columns read or written by the recodes the claims are about. String-typed
fields hold the post-mapping category labels; `taxitype` is kept as the raw
survey code (nullable `Int16`) because one claim depends on the range of
its category mapping. Columns touched only by recodes of unmodelled fields
(`parktype`, `park_cost_dk`, `parkride_lot`, `parkride_city`,
`taxi_cost_dk`, `bus_cost_dk`, `rail_cost_dk`, `ferrytype`,
`ferry_cost_dk`, names, addresses, purposes, transit access/egress) are
omitted; none of them is ever read or written by the modelled recodes. -/
structure Trip where
  data_source : Cat
  mode1 : Cat
  mode2 : Cat
  mode3 : Cat
  mode4 : Cat
  toll_no : Cat
  toll_noexpress : Cat
  toll_express : Cat
  driver : Cat
  parklocation : Cat
  taxitype : Cat
  airtype : Cat
  airfare_cost_dk : Cat
  bustype : Cat
  railtype : Cat
  h_complete_weekdays : Option Int
  travelers_hh : Option Int
  weight_person_trip : Option ℚ
  weight_trip : Option ℚ
deriving DecidableEq

/-- The exhaustive category mapping applied to the raw `taxitype` codes in
`SurveyData.trips` (the `pd.NA` key maps `NaN` cells to `"Missing"`; codes
outside the dictionary become `NaN`). -/
def mapTaxitype : Option Int → Cat
  | none => some "Missing"
  | some 1 => some "I paid the fare myself (no reimbursement)"
  | some 2 => some "Employer paid (I am reimbursed)"
  | some 3 => some "Split/shared fare with other(s)"
  | some 4 => some "Someone else paid 100% (all of taxi fare)"
  | some 97 => some "Other"
  | some (-9999) => some "Technical error"
  | some (-9998) => some "Participant non-response"
  | some _ => none

/-- `(~df.mode1.isin(l)) & (~df.mode2.isin(l)) & (~df.mode3.isin(l)) &
(~df.mode4.isin(l))`: no mode of the trip is in the given label list. -/
def noModeIn (t : Trip) (l : List String) : Bool :=
  !(catIsin t.mode1 l) && !(catIsin t.mode2 l) && !(catIsin t.mode3 l) &&
    !(catIsin t.mode4 l)

/-- The auto-mode label list of the toll recode in `SurveyData.trips`. -/
def auto_modes : List String :=
  ["Household vehicle 1",
   "Household vehicle 2",
   "Household vehicle 3",
   "Household vehicle 4",
   "Household vehicle 5",
   "Household vehicle 6",
   "Household vehicle 7",
   "Other household vehicle",
   "Rental car",
   "Carshare",
   "Other auto",
   "Work car",
   "Friends car",
   "Taxi - Regular",
   "Taxi - Rideshare"]

/-- The non-taxi auto-mode label list of the driver/parking recode. -/
def auto_nontaxi_modes : List String :=
  ["Household vehicle 1",
   "Household vehicle 2",
   "Household vehicle 3",
   "Household vehicle 4",
   "Household vehicle 5",
   "Household vehicle 6",
   "Household vehicle 7",
   "Other household vehicle",
   "Rental car",
   "Carshare",
   "Other auto",
   "Work car",
   "Friends car"]

def taxi_modes : List String := ["Taxi - Regular", "Taxi - Rideshare"]

/-- The bus-mode label list of the bus recode. -/
def bus_modes : List String := ["Bus", "Intercity bus", "Express bus/Rapid"]

/-- The label list of the recode commented `# rail variable recodes` in the
source. Note: it repeats the bus labels, not rail labels. -/
def rail_modes : List String := ["Bus", "Intercity bus", "Express bus/Rapid"]

/-- Manual recodes for online (non-rMoves) only variables: rMove rows get
`"Not Applicable"` in the online-only columns (the source also blanks
names, addresses and transit access/egress and park-and-ride columns,
which are not modelled). -/
def tripRMove (t : Trip) : Trip :=
  if catEq t.data_source "rMove" then
    { t with toll_no := na, toll_noexpress := na, toll_express := na }
  else t

/-- Toll recode: trips with no auto mode get `"Not Applicable"` tolls. -/
def tripAutoToll (t : Trip) : Trip :=
  if noModeIn t auto_modes then
    { t with toll_no := na, toll_noexpress := na, toll_express := na }
  else t

/-- Driver/parking recode: trips with no non-taxi auto mode get
`"Not Applicable"` driver and parking location. -/
def tripAutoDriverPark (t : Trip) : Trip :=
  if noModeIn t auto_nontaxi_modes then
    { t with driver := na, parklocation := na }
  else t

/-- Taxi recode: trips with no taxi mode get `"Not Applicable"`
`taxitype`. Acts on the mapped labels, see `tripsRecode`. -/
def tripTaxiType (t : Trip) : Trip :=
  if noModeIn t taxi_modes then { t with taxitype := na } else t

/-- Airplane recode: trips with no `"Airplane"` mode get `"Not Applicable"`
`airtype`. -/
def tripAirType (t : Trip) : Trip :=
  if catNe t.mode1 "Airplane" && catNe t.mode2 "Airplane" &&
      catNe t.mode3 "Airplane" && catNe t.mode4 "Airplane" then
    { t with airtype := na }
  else t

/-- The `airfare_cost_dk` recode, translated verbatim from the source: its
guard tests `df.taxitype` (not `df.airtype`) against airfare pay labels. -/
def tripAirfareCostDk (t : Trip) : Trip :=
  if !(catIsin t.taxitype
      ["Personally paid the airfare cost", "Employer paid 100%"]) then
    { t with airfare_cost_dk := na }
  else t

/-- Bus recode: trips with no bus mode get `"Not Applicable"` `bustype`. -/
def tripBusType (t : Trip) : Trip :=
  if noModeIn t bus_modes then { t with bustype := na } else t

/-- Rail recode, translated verbatim: the guard uses `rail_modes`, which
lists bus labels. -/
def tripRailType (t : Trip) : Trip :=
  if noModeIn t rail_modes then { t with railtype := na } else t

/-- `df.loc[df.h_complete_weekdays >= 1, "weight_person_trip"] = 1`: the
first statement of the survey-weight block at the end of
`SurveyData.trips`. The weight columns do not exist before the block, so
in `tripWeights` they start as all-`NaN`. -/
def tripWeightPerson (t : Trip) : Trip :=
  if intGe1 t.h_complete_weekdays then
    { t with weight_person_trip := some 1 }
  else t

/-- `df.loc[df.h_complete_weekdays >= 1, "weight_trip"] = 1`: the trip
weight is initialised at 1 for all weighting-eligible rows. -/
def tripWeightInit (t : Trip) : Trip :=
  if intGe1 t.h_complete_weekdays then
    { t with weight_trip := some 1 }
  else t

/-- `condition = (df.h_complete_weekdays >= 1) &
df.travelers_hh.isin(range(1, 11)); df.loc[condition, "weight_trip"] =
1 / df.loc[condition, "travelers_hh"]`. -/
def tripWeightDivide (t : Trip) : Trip :=
  if intGe1 t.h_complete_weekdays && intIn1to10 t.travelers_hh then
    match t.travelers_hh with
    | some k => { t with weight_trip := some (1 / (k : ℚ)) }
    | none => t
  else t

def tripWeights (t : Trip) : Trip :=
  tripWeightDivide (tripWeightInit (tripWeightPerson
    { t with weight_person_trip := (none : Option ℚ),
             weight_trip := (none : Option ℚ) }))

/-- The claim-relevant manual recodes of `SurveyData.trips` in source
order, applied to a row whose categorical cells already carry the mapped
labels (in the source, the exhaustive mappings precede all manual
recodes; `mapTaxitype` is that mapping for `taxitype`). Recodes that touch
only unmodelled columns are omitted, see `Trip`. -/
def tripsRecode (t : Trip) : Trip :=
  tripWeights (tripRailType (tripBusType (tripAirfareCostDk (tripAirType
    (tripTaxiType (tripAutoDriverPark (tripAutoToll (tripRMove t))))))))

/-- The claim-relevant output columns of `SurveyData.trips`, under their
renamed (output) column names. -/
structure TripOut where
  mode_1 : Cat
  mode_2 : Cat
  mode_3 : Cat
  mode_4 : Cat
  toll_road : Cat
  toll_road_express : Cat
  driver : Cat
  parking_location : Cat
  taxi_pay_type : Cat
  airplane_pay_type : Cat
  airplane_cost_dk : Cat
  bus_pay_type : Cat
  rail_pay_type : Cat
  number_household_survey_weekdays : Option Int
  travelers_household : Option Int
  weight_person_trip : Option ℚ
  weight_trip : Option ℚ
deriving DecidableEq

/-- `SurveyData.trips` restricted to the modelled columns: run the manual
recodes, then apply the source's `df.rename(columns=...)` map
(`mode1 → mode_1`, `toll_no → toll_road`, `toll_express →
toll_road_express`, `parklocation → parking_location`, `taxitype →
taxi_pay_type`, `airtype → airplane_pay_type`, `airfare_cost_dk →
airplane_cost_dk`, `bustype → bus_pay_type`, `railtype → rail_pay_type`,
`h_complete_weekdays → number_household_survey_weekdays`, `travelers_hh →
travelers_household`). -/
def tripsOut (t : Trip) : TripOut :=
  let r := tripsRecode t
  { mode_1 := r.mode1
    mode_2 := r.mode2
    mode_3 := r.mode3
    mode_4 := r.mode4
    toll_road := r.toll_no
    toll_road_express := r.toll_express
    driver := r.driver
    parking_location := r.parklocation
    taxi_pay_type := r.taxitype
    airplane_pay_type := r.airtype
    airplane_cost_dk := r.airfare_cost_dk
    bus_pay_type := r.bustype
    rail_pay_type := r.railtype
    number_household_survey_weekdays := r.h_complete_weekdays
    travelers_household := r.travelers_hh
    weight_person_trip := r.weight_person_trip
    weight_trip := r.weight_trip }

end Trips

section TripsClaims

/-- A concrete trip row used to instantiate the trip claims: an online
walk trip of an eligible household. -/
def sampleTripWalk : Trip :=
  { data_source := some "Online"
    mode1 := some "Walk"
    mode2 := none
    mode3 := none
    mode4 := none
    toll_no := some "No"
    toll_noexpress := some "No"
    toll_express := some "No"
    driver := some "Driver"
    parklocation := some "Parking lot/garage"
    taxitype := some "Missing"
    airtype := some "Missing"
    airfare_cost_dk := some "No"
    bustype := some "Missing"
    railtype := some "Missing"
    h_complete_weekdays := some 2
    travelers_hh := some 2
    weight_person_trip := none
    weight_trip := none }

/-- A concrete trip row whose only modes are rail modes, for the rail
recode claim. -/
def sampleTripRail : Trip :=
  { sampleTripWalk with
      mode1 := some "Rail - Light"
      mode2 := some "San Diego Coaster Line" }

/-- A concrete eligible trip row with 11 household travelers, outside the
valid `range(1, 11)` traveler band. -/
def sampleTripEleven : Trip :=
  { sampleTripWalk with travelers_hh := some 11 }

end TripsClaims

section Persons

/-- One row of the person list inside `SurveyData.persons`, restricted to
the columns read or written by the manual recodes the claims are about,
holding the post-mapping category labels. Omitted columns (addresses,
school, daycare, smartphone, second home, diary, height/weight,
student/education/physical activity) are only touched by recodes that
read and write none of the modelled columns. -/
structure Person where
  age : Cat
  employment : Cat
  jobs_count : Cat
  license : Cat
  military : Cat
  ethnicity_amindian_alaska : Cat
  ethnicity_asian : Cat
  ethnicity_black : Cat
  ethnicity_hispanic : Cat
  ethnicity_hawaiian_pacific : Cat
  ethnicity_white : Cat
  ethnicity_other : Cat
  ethnicity_prefernot : Cat
  disability : Cat
  transit_freq : Cat
  transitpass : Cat
  job_type : Cat
  occupation : Cat
  industry : Cat
  hours_work : Cat
  commute_freq : Cat
  commute_mode : Cat
  work_flex : Cat
  work_park_pay : Cat
  work_park_cost_dk : Cat
  work_park_ease : Cat
  telecommute_freq : Cat
  commute_subsidy_none : Cat
  commute_subsidy_parking : Cat
  commute_subsidy_transit : Cat
  commute_subsidy_vanpool : Cat
  commute_subsidy_cash : Cat
  commute_subsidy_other : Cat
  commute_subsidy_specify : Cat
deriving DecidableEq

/-- Manual recodes for age 16+ variables: persons under 16 get
`"Not Applicable"` in every age-16+ column (the source list also includes
the unmodelled `work_address`, `secondwork_address`, `smartphone_type`
and `smartphone_age`). -/
def personsAge16 (p : Person) : Person :=
  if catIsin p.age ["Under 5 years old", "5-15 years"] then
    { p with
        employment := na
        jobs_count := na
        license := na
        military := na
        ethnicity_amindian_alaska := na
        ethnicity_asian := na
        ethnicity_black := na
        ethnicity_hispanic := na
        ethnicity_hawaiian_pacific := na
        ethnicity_white := na
        ethnicity_other := na
        ethnicity_prefernot := na
        disability := na
        transit_freq := na
        transitpass := na
        job_type := na
        occupation := na
        industry := na
        hours_work := na
        commute_freq := na
        commute_mode := na
        work_flex := na
        work_park_pay := na
        work_park_cost_dk := na
        work_park_ease := na
        telecommute_freq := na
        commute_subsidy_none := na
        commute_subsidy_parking := na
        commute_subsidy_transit := na
        commute_subsidy_vanpool := na
        commute_subsidy_cash := na
        commute_subsidy_other := na
        commute_subsidy_specify := na }
  else p

/-- Manual recode for employed variables: not-currently-employed persons
get `"Not Applicable"` in the employment-detail columns (the source list
also includes the unmodelled `work_address` and `secondwork_address`). -/
def personsNotEmployed (p : Person) : Person :=
  if catEq p.employment "Not currently employed" then
    { p with
        jobs_count := na
        military := na
        job_type := na
        occupation := na
        industry := na
        hours_work := na
        commute_freq := na
        commute_mode := na
        work_flex := na
        work_park_pay := na
        work_park_cost_dk := na
        work_park_ease := na
        telecommute_freq := na
        commute_subsidy_none := na
        commute_subsidy_parking := na
        commute_subsidy_transit := na
        commute_subsidy_vanpool := na
        commute_subsidy_cash := na
        commute_subsidy_other := na
        commute_subsidy_specify := na }
  else p

/-- Manual recode for ethnicity variables. -/
def personsEthnicity (p : Person) : Person :=
  if catEq p.ethnicity_prefernot "Yes" then
    { p with
        ethnicity_amindian_alaska := na
        ethnicity_asian := na
        ethnicity_black := na
        ethnicity_hispanic := na
        ethnicity_hawaiian_pacific := na
        ethnicity_white := na
        ethnicity_other := na }
  else p

/-- Manual recode for the transit pass variable. -/
def personsTransitPass (p : Person) : Person :=
  if catIsin p.transit_freq
      ["1-3 days per month", "Less than monthly", "Never"] then
    { p with transitpass := na }
  else p

/-- Manual recode for non-military variables: active-duty persons get
`"Not Applicable"` in all civilian-employment columns. -/
def personsMilitary (p : Person) : Person :=
  if catIsin p.military
      ["Active duty within the San Diego region",
       "Active duty outside of the San Diego region"] then
    { p with
        job_type := na
        occupation := na
        industry := na
        hours_work := na
        commute_freq := na
        commute_mode := na
        work_flex := na
        work_park_pay := na
        work_park_cost_dk := na
        work_park_ease := na
        telecommute_freq := na
        commute_subsidy_none := na
        commute_subsidy_parking := na
        commute_subsidy_transit := na
        commute_subsidy_vanpool := na
        commute_subsidy_cash := na
        commute_subsidy_other := na
        commute_subsidy_specify := na }
  else p

/-- Manual recode for commute variables: telecommute frequency of
work-at-home-only persons. -/
def personsTelecommute (p : Person) : Person :=
  if catEq p.job_type "Work at home only (only telework or self-employed)" then
    { p with telecommute_freq := na }
  else p

/-- Manual recode for commute variables: commute frequency of
work-at-home-only and drive-for-a-living persons. -/
def personsCommuteFreqJobType (p : Person) : Person :=
  if catIsin p.job_type
      ["Work at home only (only telework or self-employed)",
       "Drive/Travel for a living (e.g., bus/truck driver, salesman)"] then
    { p with commute_freq := na }
  else p

/-- Manual recode for commute variables: persons who never commute (or for
whom commuting is not applicable) get `"Not Applicable"` in the
commute-detail columns. -/
def personsCommuteFreqBlank (p : Person) : Person :=
  if catIsin p.commute_freq ["Never", "Not Applicable"] then
    { p with
        commute_mode := na
        work_flex := na
        work_park_pay := na
        work_park_cost_dk := na
        work_park_ease := na
        commute_subsidy_none := na
        commute_subsidy_parking := na
        commute_subsidy_transit := na
        commute_subsidy_vanpool := na
        commute_subsidy_cash := na
        commute_subsidy_other := na
        commute_subsidy_specify := na }
  else p

/-- Manual recode for the commute subsidy specify variable. -/
def personsSubsidySpecify (p : Person) : Person :=
  if catIsin p.commute_subsidy_other ["No", "Not Applicable"] then
    { p with commute_subsidy_specify := na }
  else p

/-- Manual recode for work parking payment variables. -/
def personsWorkParking (p : Person) : Person :=
  if !(catIsin p.commute_mode
      ["Drive alone",
       "Carpool with only family/household member(s)",
       "Carpool with at least one person not in household",
       "Motorcycle/moped/scooter"]) then
    { p with work_park_pay := na, work_park_cost_dk := na,
             work_park_ease := na }
  else p

/-- The claim-relevant manual recodes of `SurveyData.persons` in source
order (recodes touching only unmodelled columns — age 16-17 smartphone,
age 18+ student variables, school, daycare, addresses, second home,
rMove diary, smartphone age — are omitted). -/
def personsRecode (p : Person) : Person :=
  personsWorkParking (personsSubsidySpecify (personsCommuteFreqBlank
    (personsCommuteFreqJobType (personsTelecommute (personsMilitary
      (personsTransitPass (personsEthnicity (personsNotEmployed
        (personsAge16 p)))))))))

/-- The claim-relevant output columns of `SurveyData.persons`, under
their renamed (output) column names. -/
structure PersonOut where
  age_category : Cat
  employment_status : Cat
  military_status : Cat
  work_location_type : Cat
  occupation : Cat
  industry : Cat
  hours_worked : Cat
  commute_frequency : Cat
  commute_mode : Cat
  work_arrival_frequency : Cat
  work_parking_payment : Cat
  work_parking_cost_dk : Cat
  work_parking_ease : Cat
  telecommute_frequency : Cat
  commute_subsidy_none : Cat
  commute_subsidy_parking : Cat
  commute_subsidy_transit : Cat
  commute_subsidy_vanpool : Cat
  commute_subsidy_cash : Cat
  commute_subsidy_other : Cat
  commute_subsidy_specify : Cat
deriving DecidableEq

/-- `SurveyData.persons` restricted to the modelled columns: run the
manual recodes, then apply the source's rename map (`age → age_category`,
`employment → employment_status`, `military → military_status`,
`job_type → work_location_type`, `hours_work → hours_worked`,
`commute_freq → commute_frequency`, `work_flex → work_arrival_frequency`,
`work_park_pay → work_parking_payment`, `telecommute_freq →
telecommute_frequency`; the commute-subsidy columns keep their names). -/
def personsOut (p : Person) : PersonOut :=
  let r := personsRecode p
  { age_category := r.age
    employment_status := r.employment
    military_status := r.military
    work_location_type := r.job_type
    occupation := r.occupation
    industry := r.industry
    hours_worked := r.hours_work
    commute_frequency := r.commute_freq
    commute_mode := r.commute_mode
    work_arrival_frequency := r.work_flex
    work_parking_payment := r.work_park_pay
    work_parking_cost_dk := r.work_park_cost_dk
    work_parking_ease := r.work_park_ease
    telecommute_frequency := r.telecommute_freq
    commute_subsidy_none := r.commute_subsidy_none
    commute_subsidy_parking := r.commute_subsidy_parking
    commute_subsidy_transit := r.commute_subsidy_transit
    commute_subsidy_vanpool := r.commute_subsidy_vanpool
    commute_subsidy_cash := r.commute_subsidy_cash
    commute_subsidy_other := r.commute_subsidy_other
    commute_subsidy_specify := r.commute_subsidy_specify }

end Persons

section PersonsLemmas

/-- The civilian-employment columns the military recode blanks (and the
later commute recodes can only re-blank): all equal to
`"Not Applicable"`. -/
def MilitaryBlankTargets (q : Person) : Prop :=
  q.occupation = na ∧ q.industry = na ∧ q.hours_work = na ∧
    q.commute_freq = na ∧ q.commute_mode = na ∧ q.work_park_pay = na ∧
    q.work_park_cost_dk = na ∧ q.work_park_ease = na ∧
    q.telecommute_freq = na ∧ q.commute_subsidy_none = na ∧
    q.commute_subsidy_parking = na ∧ q.commute_subsidy_transit = na ∧
    q.commute_subsidy_vanpool = na ∧ q.commute_subsidy_cash = na ∧
    q.commute_subsidy_other = na ∧ q.commute_subsidy_specify = na

end PersonsLemmas

section PersonsClaims

/-- A concrete adult employed person on active duty in the region, used to
instantiate the person claims. -/
def samplePersonMilitary : Person :=
  { age := some "35-44 years"
    employment := some "Employed full-time (paid) 35+ hours/week"
    jobs_count := some "1"
    license := some "Yes"
    military := some "Active duty within the San Diego region"
    ethnicity_amindian_alaska := some "No"
    ethnicity_asian := some "No"
    ethnicity_black := some "No"
    ethnicity_hispanic := some "No"
    ethnicity_hawaiian_pacific := some "No"
    ethnicity_white := some "Yes"
    ethnicity_other := some "No"
    ethnicity_prefernot := some "No"
    disability := some "No"
    transit_freq := some "Never"
    transitpass := none
    job_type := some "Work outside of home at a fixed location"
    occupation := some "Armed forces"
    industry := some "Military"
    hours_work := some "35-40 hours"
    commute_freq := some "5 days a week"
    commute_mode := some "Drive alone"
    work_flex := some "Usually the same time"
    work_park_pay := some "Free parking at work"
    work_park_cost_dk := some "No"
    work_park_ease := some "Easy"
    telecommute_freq := some "Never"
    commute_subsidy_none := some "Yes"
    commute_subsidy_parking := some "No"
    commute_subsidy_transit := some "No"
    commute_subsidy_vanpool := some "No"
    commute_subsidy_cash := some "No"
    commute_subsidy_other := some "No"
    commute_subsidy_specify := none }

/-- A concrete child person (5-15 years), used to instantiate the
under-16 claim. -/
def samplePersonChild : Person :=
  { samplePersonMilitary with
      age := some "5-15 years"
      military := some "No current affiliation with the military" }

end PersonsClaims

section Day

/-- The exhaustive category mapping applied to the raw `trips_yesno` codes
in `SurveyData.day` (the `pd.NA` key maps `NaN` cells to `"Missing"`). -/
def mapTripsYesno : Option Int → Cat
  | none => some "Missing"
  | some 1 => some "Yes"
  | some 2 => some "No"
  | some _ => none

/-- One row of the person-day table inside `SurveyData.day`, restricted to
the columns of the made-trips recode; `trips_yesno` is the raw reported
code. Later recodes of the method never write `trips_yesno` again. -/
structure Day where
  num_trips : Option Int
  trips_yesno : Option Int
deriving DecidableEq

/-- The made-trips enforcement in `SurveyData.day`, applied after the
category mapping:
`df.loc[df.num_trips > 0, "trips_yesno"] = "Yes"` then
`df.loc[df.num_trips == 0, "trips_yesno"] = "No"`. -/
def dayMadeTrips (d : Day) : Cat :=
  let v0 := mapTripsYesno d.trips_yesno
  let v1 := if intGt0 d.num_trips then some "Yes" else v0
  if intEq0 d.num_trips then some "No" else v1

/-- The claim-relevant output columns of `SurveyData.day`, under their
renamed column names (`num_trips → number_trips`,
`trips_yesno → made_trips`). -/
structure DayOut where
  number_trips : Option Int
  made_trips : Cat
deriving DecidableEq

def dayOut (d : Day) : DayOut :=
  { number_trips := d.num_trips, made_trips := dayMadeTrips d }

end Day

section Vehicles

/-- Strict lexicographic order on `(hhid, vehnum)` keys. -/
def lexLt (a b : Int × Int) : Bool :=
  decide (a.1 < b.1) || (decide (a.1 = b.1) && decide (a.2 < b.2))

/-- `df.groupby(["hhid", "vehnum"]).ngroup() + 1` from
`SurveyData.vehicles`, with pandas' default `sort=True`: each row gets the
rank of its `(hhid, vehnum)` key among the sorted distinct keys, starting
at 1 — computed as one plus the number of distinct keys lexicographically
smaller than the row's key. -/
def keyRank (rows : List (Int × Int)) (r : Int × Int) : Nat :=
  ((distinctFirst rows).filter (fun k => lexLt k r)).length + 1

/-- The `vehicle_id` surrogate-key column over the input rows' key pairs. -/
def vehicleIds (rows : List (Int × Int)) : List Nat :=
  rows.map (keyRank rows)

/-- The enumeration the spec describes instead: distinct keys numbered
from 1 in the order they are first seen in the input. -/
def vehicleIdsFirstSeen (rows : List (Int × Int)) : List Nat :=
  rows.map (fun r => (distinctFirst rows).indexOf r + 1)

end Vehicles

section Border

/-- The exhaustive category mappings of `SurveyData.border_trips` (these
dictionaries have no `pd.NA` key, so `NaN` cells and unknown codes both
stay `NaN`). -/
def mapBorderMode : Option Int → Cat
  | some 1 => some "My own vehicle (or motorcycle)"
  | some 2 => some "Other vehicle (e.g., rental, carshare, taxi, work car, friends)"
  | some 3 => some "Bus/shuttle"
  | some 4 => some "Walking (or biking)"
  | some 5 => some "Airplane (or helicopter)"
  | some 97 => some "Other way of traveling"
  | _ => none

def mapBorderPoe : Option Int → Cat
  | some 1 => some "Otay Mesa (SR-905) Port of Entry"
  | some 2 => some "San Ysidro (I-5/I-805) Port of Entry"
  | some 3 => some "Tecate (SR 188) Port of Entry"
  | some 4 => some "Cross-border Terminal, Tijuana Intl Airport (pedestrian only)"
  | some 97 => some "Other"
  | _ => none

def mapBorderPurpose : Option Int → Cat
  | some 1 => some "Drop-off/pick-up someone (e.g., at Tijuana Intl Airport)"
  | some 2 => some "Social (visit friends/family)"
  | some 3 => some "Leisure/recreation/vacation"
  | some 4 => some "Work/business-related"
  | some 5 => some "Personal business (e.g., medical appointment)"
  | some 97 => some "Other"
  | _ => none

def mapBorderDuration : Option Int → Cat
  | some 1 => some "Less than 1 day"
  | some 2 => some "1-2 days"
  | some 3 => some "3-5 days"
  | some 4 => some "6-10 days"
  | some 5 => some "More than 10 days"
  | _ => none

def mapBorderParty : Option Int → Cat
  | some 1 => some "1 (I traveled alone)"
  | some 2 => some "2 persons total"
  | some 3 => some "3 persons total"
  | some 4 => some "4 persons total"
  | some 5 => some "5 or more persons total (including me)"
  | _ => none

/-- One of the four fixed wide-format occurrence slots of a household
record (`border_mode_j`, `border_poe_j`, `border_purpose_j`,
`border_duration_j`, `border_party_j`), as raw codes. -/
structure BorderSlot where
  mode : Option Int
  poe : Option Int
  purpose : Option Int
  duration : Option Int
  party : Option Int
deriving DecidableEq

/-- A household record of the wide border-trip file: `hhid` plus the four
fixed occurrence slots. -/
structure BorderWide where
  hhid : Int
  slot1 : BorderSlot
  slot2 : BorderSlot
  slot3 : BorderSlot
  slot4 : BorderSlot
deriving DecidableEq

/-- One long-format row produced by `pd.wide_to_long` (indexed by
`(hhid, trip_id)`), after the category mappings. -/
structure BorderLong where
  hhid : Int
  trip_id : Nat
  mode : Cat
  port_of_entry : Cat
  purpose : Cat
  duration : Cat
  party_size : Cat
deriving DecidableEq

/-- An output row of `SurveyData.border_trips`, with the surrogate key
`border_trip_id` (`np.arange(len(df))`, 0-based). -/
structure BorderOut where
  border_trip_id : Nat
  household_id : Int
  trip_id : Nat
  mode : Cat
  port_of_entry : Cat
  purpose : Cat
  duration : Cat
  party_size : Cat
deriving DecidableEq

def slotToLong (h : Int) (j : Nat) (s : BorderSlot) : BorderLong :=
  { hhid := h
    trip_id := j
    mode := mapBorderMode s.mode
    port_of_entry := mapBorderPoe s.poe
    purpose := mapBorderPurpose s.purpose
    duration := mapBorderDuration s.duration
    party_size := mapBorderParty s.party }

/-- `pd.wide_to_long` on one household record: one long row per fixed
occurrence slot `j = 1..4`. -/
def wideToLong (w : BorderWide) : List BorderLong :=
  [slotToLong w.hhid 1 w.slot1, slotToLong w.hhid 2 w.slot2,
   slotToLong w.hhid 3 w.slot3, slotToLong w.hhid 4 w.slot4]

/-- All long rows of the reshaped data-set (the row order across
households is irrelevant to the claims; within a household the slots stay
in order). -/
def borderLongRows (ws : List BorderWide) : List BorderLong :=
  (ws.map wideToLong).flatten

/-- The keep condition of `df.dropna()` — pandas' default `how='any'`: a
row survives only when none of its five occurrence fields is `NaN`. -/
def rowComplete (r : BorderLong) : Bool :=
  r.mode.isSome && r.port_of_entry.isSome && r.purpose.isSome &&
    r.duration.isSome && r.party_size.isSome

/-- The predicate the spec claims the drop uses: every field of the
occurrence group is empty. -/
def rowAllEmpty (r : BorderLong) : Bool :=
  r.mode.isNone && r.port_of_entry.isNone && r.purpose.isNone &&
    r.duration.isNone && r.party_size.isNone

/-- `SurveyData.border_trips` restricted to the modelled columns: reshape
wide to long, apply the category mappings, drop rows via `df.dropna()`,
then assign the surrogate key `border_trip_id = np.arange(len(df))`. -/
def border_trips (ws : List BorderWide) : List BorderOut :=
  (((borderLongRows ws).filter rowComplete).enum).map (fun ir =>
    { border_trip_id := ir.1
      household_id := ir.2.hhid
      trip_id := ir.2.trip_id
      mode := ir.2.mode
      port_of_entry := ir.2.port_of_entry
      purpose := ir.2.purpose
      duration := ir.2.duration
      party_size := ir.2.party_size })

def emptyBorderSlot : BorderSlot :=
  { mode := none, poe := none, purpose := none, duration := none,
    party := none }

/-- A household record with only occurrence slot 2 fully populated. -/
def sampleBorderSlot2Only : BorderWide :=
  { hhid := 1
    slot1 := emptyBorderSlot
    slot2 := { mode := some 1, poe := some 2, purpose := some 2,
               duration := some 1, party := some 2 }
    slot3 := emptyBorderSlot
    slot4 := emptyBorderSlot }

/-- A household record whose slot 1 is partially populated: a mode is
given but the other four occurrence fields are empty. -/
def sampleBorderPartial : BorderWide :=
  { hhid := 1
    slot1 := { mode := some 1, poe := none, purpose := none,
               duration := none, party := none }
    slot2 := emptyBorderSlot
    slot3 := emptyBorderSlot
    slot4 := emptyBorderSlot }

end Border

section DaySamples

/-- A person-day with three trips whose reported `trips_yesno` code 2
maps to `"No"`, and one with zero trips whose reported code 1 maps to
`"Yes"` — both conflicting with the derived value. -/
def sampleDayConflictYes : Day := { num_trips := some 3, trips_yesno := some 2 }

def sampleDayConflictNo : Day := { num_trips := some 0, trips_yesno := some 1 }

end DaySamples

section Dedup

variable {α : Type} [DecidableEq α]

theorem dedupFirstSpec_nil : dedupFirstSpec ([] : List α) = [] := by
  simp [dedupFirstSpec]

theorem dedupFirstSpec_cons (x : α) (xs : List α) :
    dedupFirstSpec (x :: xs) = x :: dedupFirstSpec (xs.filter (fun y => y ≠ x)) := by
  simp [dedupFirstSpec]

/-- The fold in `distinctFirst`, with an arbitrary accumulator of already
seen elements, agrees with the recursive first-occurrence description. -/
theorem foldl_distinct_eq (l : List α) :
    ∀ acc : List α,
      l.foldl (fun acc x => if x ∈ acc then acc else acc ++ [x]) acc =
        acc ++ dedupFirstSpec (l.filter (fun y => y ∉ acc)) := by
  induction l with
  | nil => intro acc; simp [dedupFirstSpec]
  | cons x xs ih =>
    intro acc
    by_cases hx : x ∈ acc
    · have hfilter :
        (x :: xs).filter (fun y => y ∉ acc) = xs.filter (fun y => y ∉ acc) := by
        simp [List.filter_cons, hx]
      rw [hfilter, List.foldl_cons, if_pos hx, ih acc]
    · have hfilter :
        (x :: xs).filter (fun y => y ∉ acc) = x :: xs.filter (fun y => y ∉ acc) := by
        simp [List.filter_cons, hx]
      rw [hfilter, List.foldl_cons, if_neg hx, ih (acc ++ [x]),
        dedupFirstSpec_cons, List.append_assoc, List.singleton_append]
      congr 2
      rw [List.filter_filter]
      congr 1
      apply List.filter_congr
      intro y _
      by_cases hyx : y = x <;> by_cases hya : y ∈ acc <;>
        simp [hyx, hya, List.mem_append]

/-- `distinctFirst` is exactly keep-the-first-occurrence de-duplication. -/
theorem distinctFirst_eq_spec (l : List α) :
    distinctFirst l = dedupFirstSpec l := by
  have h := foldl_distinct_eq l ([] : List α)
  simp only [List.not_mem_nil, not_false_iff, List.filter_true, List.nil_append] at h
  simpa [distinctFirst, List.filter_true] using h

theorem mem_dedupFirstSpec {l : List α} {x : α} :
    x ∈ dedupFirstSpec l ↔ x ∈ l := by
  induction l using dedupFirstSpec.induct with
  | case1 => simp [dedupFirstSpec]
  | case2 y ys ih =>
    rw [dedupFirstSpec_cons]
    constructor
    · intro h
      rcases List.mem_cons.mp h with h | h
      · exact h ▸ List.mem_cons_self _ _
      · exact List.mem_cons_of_mem _ (List.mem_filter.mp (ih.mp h)).1
    · intro h
      rcases List.mem_cons.mp h with h | h
      · exact h ▸ List.mem_cons_self _ _
      · by_cases hxy : x = y
        · exact hxy ▸ List.mem_cons_self _ _
        · exact List.mem_cons_of_mem _
            (ih.mpr (List.mem_filter.mpr ⟨h, by simpa using hxy⟩))

theorem mem_distinctFirst {l : List α} {x : α} :
    x ∈ distinctFirst l ↔ x ∈ l := by
  rw [distinctFirst_eq_spec]; exact mem_dedupFirstSpec

theorem dedupFirstSpec_nodup (l : List α) : (dedupFirstSpec l).Nodup := by
  induction l using dedupFirstSpec.induct with
  | case1 => simp [dedupFirstSpec]
  | case2 y ys ih =>
    rw [dedupFirstSpec_cons]
    refine List.nodup_cons.mpr ⟨?_, ih⟩
    intro hmem
    have := (List.mem_filter.mp (mem_dedupFirstSpec.mp hmem)).2
    simp at this

theorem distinctFirst_nodup (l : List α) : (distinctFirst l).Nodup := by
  rw [distinctFirst_eq_spec]; exact dedupFirstSpec_nodup l

theorem distinctFirst_eq_nil_iff {l : List α} :
    distinctFirst l = [] ↔ l = [] := by
  rw [distinctFirst_eq_spec]
  cases l with
  | nil => simp [dedupFirstSpec]
  | cons x xs => simp [dedupFirstSpec_cons]

end Dedup

section LineWkt

variable {α β : Type} [DecidableEq α]

/-- Closed-form description of `line_wkt1` by the shape of the de-duplicated
vertex list. -/
theorem line_wkt1_characterisation (isValid : Geometry β → Bool) (tr : α → β)
    (line : List α) :
    line_wkt1 isValid tr line =
      match distinctFirst line with
      | [] => none
      | [p] =>
        if isValid (Geometry.point (tr p)) then some (Geometry.point (tr p))
        else none
      | ps =>
        if isValid (Geometry.lineString (ps.map tr)) then
          some (Geometry.lineString (ps.map tr))
        else none := by
  rcases hd : distinctFirst line with _ | ⟨p, _ | ⟨q, rest⟩⟩
  · have : line = [] := distinctFirst_eq_nil_iff.mp hd
    subst this
    simp [line_wkt1]
  · have hne : line ≠ [] := by
      intro h; subst h
      simp [distinctFirst] at hd
    have hlen : 0 < line.length := List.length_pos.mpr hne
    simp [line_wkt1, if_pos hlen, hd, transformG]
  · have hne : line ≠ [] := by
      intro h; subst h
      simp [distinctFirst] at hd
    have hlen : 0 < line.length := List.length_pos.mpr hne
    simp [line_wkt1, if_pos hlen, hd, transformG]

end LineWkt

section TripsFrame

/-! Frame lemmas: each recode leaves the columns it does not assign
unchanged. -/

@[simp] theorem tripWeightPerson_toll_no (t : Trip) :
    (tripWeightPerson t).toll_no = t.toll_no := by
  unfold tripWeightPerson; split <;> rfl

@[simp] theorem tripWeightInit_toll_no (t : Trip) :
    (tripWeightInit t).toll_no = t.toll_no := by
  unfold tripWeightInit; split <;> rfl

@[simp] theorem tripWeightDivide_toll_no (t : Trip) :
    (tripWeightDivide t).toll_no = t.toll_no := by
  unfold tripWeightDivide; repeat' split
  all_goals rfl

@[simp] theorem tripWeightPerson_toll_express (t : Trip) :
    (tripWeightPerson t).toll_express = t.toll_express := by
  unfold tripWeightPerson; split <;> rfl

@[simp] theorem tripWeightInit_toll_express (t : Trip) :
    (tripWeightInit t).toll_express = t.toll_express := by
  unfold tripWeightInit; split <;> rfl

@[simp] theorem tripWeightDivide_toll_express (t : Trip) :
    (tripWeightDivide t).toll_express = t.toll_express := by
  unfold tripWeightDivide; repeat' split
  all_goals rfl

@[simp] theorem tripWeightPerson_driver (t : Trip) :
    (tripWeightPerson t).driver = t.driver := by
  unfold tripWeightPerson; split <;> rfl

@[simp] theorem tripWeightInit_driver (t : Trip) :
    (tripWeightInit t).driver = t.driver := by
  unfold tripWeightInit; split <;> rfl

@[simp] theorem tripWeightDivide_driver (t : Trip) :
    (tripWeightDivide t).driver = t.driver := by
  unfold tripWeightDivide; repeat' split
  all_goals rfl

@[simp] theorem tripWeightPerson_parklocation (t : Trip) :
    (tripWeightPerson t).parklocation = t.parklocation := by
  unfold tripWeightPerson; split <;> rfl

@[simp] theorem tripWeightInit_parklocation (t : Trip) :
    (tripWeightInit t).parklocation = t.parklocation := by
  unfold tripWeightInit; split <;> rfl

@[simp] theorem tripWeightDivide_parklocation (t : Trip) :
    (tripWeightDivide t).parklocation = t.parklocation := by
  unfold tripWeightDivide; repeat' split
  all_goals rfl

@[simp] theorem tripWeightPerson_airfare_cost_dk (t : Trip) :
    (tripWeightPerson t).airfare_cost_dk = t.airfare_cost_dk := by
  unfold tripWeightPerson; split <;> rfl

@[simp] theorem tripWeightInit_airfare_cost_dk (t : Trip) :
    (tripWeightInit t).airfare_cost_dk = t.airfare_cost_dk := by
  unfold tripWeightInit; split <;> rfl

@[simp] theorem tripWeightDivide_airfare_cost_dk (t : Trip) :
    (tripWeightDivide t).airfare_cost_dk = t.airfare_cost_dk := by
  unfold tripWeightDivide; repeat' split
  all_goals rfl

@[simp] theorem tripWeightPerson_railtype (t : Trip) :
    (tripWeightPerson t).railtype = t.railtype := by
  unfold tripWeightPerson; split <;> rfl

@[simp] theorem tripWeightInit_railtype (t : Trip) :
    (tripWeightInit t).railtype = t.railtype := by
  unfold tripWeightInit; split <;> rfl

@[simp] theorem tripWeightDivide_railtype (t : Trip) :
    (tripWeightDivide t).railtype = t.railtype := by
  unfold tripWeightDivide; repeat' split
  all_goals rfl

@[simp] theorem tripRMove_noModeIn (t : Trip) (l : List String) :
    noModeIn (tripRMove t) l = noModeIn t l := by
  unfold tripRMove; split <;> rfl

@[simp] theorem tripAutoToll_noModeIn (t : Trip) (l : List String) :
    noModeIn (tripAutoToll t) l = noModeIn t l := by
  unfold tripAutoToll; split <;> rfl

@[simp] theorem tripAutoDriverPark_noModeIn (t : Trip) (l : List String) :
    noModeIn (tripAutoDriverPark t) l = noModeIn t l := by
  unfold tripAutoDriverPark; split <;> rfl

@[simp] theorem tripTaxiType_noModeIn (t : Trip) (l : List String) :
    noModeIn (tripTaxiType t) l = noModeIn t l := by
  unfold tripTaxiType; split <;> rfl

@[simp] theorem tripAirType_noModeIn (t : Trip) (l : List String) :
    noModeIn (tripAirType t) l = noModeIn t l := by
  unfold tripAirType; split <;> rfl

@[simp] theorem tripAirfareCostDk_noModeIn (t : Trip) (l : List String) :
    noModeIn (tripAirfareCostDk t) l = noModeIn t l := by
  unfold tripAirfareCostDk; split <;> rfl

@[simp] theorem tripBusType_noModeIn (t : Trip) (l : List String) :
    noModeIn (tripBusType t) l = noModeIn t l := by
  unfold tripBusType; split <;> rfl

@[simp] theorem tripAutoDriverPark_toll_no (t : Trip) :
    (tripAutoDriverPark t).toll_no = t.toll_no := by
  unfold tripAutoDriverPark; split <;> rfl

@[simp] theorem tripTaxiType_toll_no (t : Trip) :
    (tripTaxiType t).toll_no = t.toll_no := by
  unfold tripTaxiType; split <;> rfl

@[simp] theorem tripAirType_toll_no (t : Trip) :
    (tripAirType t).toll_no = t.toll_no := by
  unfold tripAirType; split <;> rfl

@[simp] theorem tripAirfareCostDk_toll_no (t : Trip) :
    (tripAirfareCostDk t).toll_no = t.toll_no := by
  unfold tripAirfareCostDk; split <;> rfl

@[simp] theorem tripBusType_toll_no (t : Trip) :
    (tripBusType t).toll_no = t.toll_no := by
  unfold tripBusType; split <;> rfl

@[simp] theorem tripRailType_toll_no (t : Trip) :
    (tripRailType t).toll_no = t.toll_no := by
  unfold tripRailType; split <;> rfl

@[simp] theorem tripWeights_toll_no (t : Trip) :
    (tripWeights t).toll_no = t.toll_no := by
  simp [tripWeights]

@[simp] theorem tripAutoDriverPark_toll_express (t : Trip) :
    (tripAutoDriverPark t).toll_express = t.toll_express := by
  unfold tripAutoDriverPark; split <;> rfl

@[simp] theorem tripTaxiType_toll_express (t : Trip) :
    (tripTaxiType t).toll_express = t.toll_express := by
  unfold tripTaxiType; split <;> rfl

@[simp] theorem tripAirType_toll_express (t : Trip) :
    (tripAirType t).toll_express = t.toll_express := by
  unfold tripAirType; split <;> rfl

@[simp] theorem tripAirfareCostDk_toll_express (t : Trip) :
    (tripAirfareCostDk t).toll_express = t.toll_express := by
  unfold tripAirfareCostDk; split <;> rfl

@[simp] theorem tripBusType_toll_express (t : Trip) :
    (tripBusType t).toll_express = t.toll_express := by
  unfold tripBusType; split <;> rfl

@[simp] theorem tripRailType_toll_express (t : Trip) :
    (tripRailType t).toll_express = t.toll_express := by
  unfold tripRailType; split <;> rfl

@[simp] theorem tripWeights_toll_express (t : Trip) :
    (tripWeights t).toll_express = t.toll_express := by
  simp [tripWeights]

@[simp] theorem tripTaxiType_driver (t : Trip) :
    (tripTaxiType t).driver = t.driver := by
  unfold tripTaxiType; split <;> rfl

@[simp] theorem tripAirType_driver (t : Trip) :
    (tripAirType t).driver = t.driver := by
  unfold tripAirType; split <;> rfl

@[simp] theorem tripAirfareCostDk_driver (t : Trip) :
    (tripAirfareCostDk t).driver = t.driver := by
  unfold tripAirfareCostDk; split <;> rfl

@[simp] theorem tripBusType_driver (t : Trip) :
    (tripBusType t).driver = t.driver := by
  unfold tripBusType; split <;> rfl

@[simp] theorem tripRailType_driver (t : Trip) :
    (tripRailType t).driver = t.driver := by
  unfold tripRailType; split <;> rfl

@[simp] theorem tripWeights_driver (t : Trip) :
    (tripWeights t).driver = t.driver := by
  simp [tripWeights]

@[simp] theorem tripTaxiType_parklocation (t : Trip) :
    (tripTaxiType t).parklocation = t.parklocation := by
  unfold tripTaxiType; split <;> rfl

@[simp] theorem tripAirType_parklocation (t : Trip) :
    (tripAirType t).parklocation = t.parklocation := by
  unfold tripAirType; split <;> rfl

@[simp] theorem tripAirfareCostDk_parklocation (t : Trip) :
    (tripAirfareCostDk t).parklocation = t.parklocation := by
  unfold tripAirfareCostDk; split <;> rfl

@[simp] theorem tripBusType_parklocation (t : Trip) :
    (tripBusType t).parklocation = t.parklocation := by
  unfold tripBusType; split <;> rfl

@[simp] theorem tripRailType_parklocation (t : Trip) :
    (tripRailType t).parklocation = t.parklocation := by
  unfold tripRailType; split <;> rfl

@[simp] theorem tripWeights_parklocation (t : Trip) :
    (tripWeights t).parklocation = t.parklocation := by
  simp [tripWeights]

@[simp] theorem tripRMove_taxitype (t : Trip) :
    (tripRMove t).taxitype = t.taxitype := by
  unfold tripRMove; split <;> rfl

@[simp] theorem tripAutoToll_taxitype (t : Trip) :
    (tripAutoToll t).taxitype = t.taxitype := by
  unfold tripAutoToll; split <;> rfl

@[simp] theorem tripAutoDriverPark_taxitype (t : Trip) :
    (tripAutoDriverPark t).taxitype = t.taxitype := by
  unfold tripAutoDriverPark; split <;> rfl

@[simp] theorem tripAirType_taxitype (t : Trip) :
    (tripAirType t).taxitype = t.taxitype := by
  unfold tripAirType; split <;> rfl

@[simp] theorem tripBusType_airfare_cost_dk (t : Trip) :
    (tripBusType t).airfare_cost_dk = t.airfare_cost_dk := by
  unfold tripBusType; split <;> rfl

@[simp] theorem tripRailType_airfare_cost_dk (t : Trip) :
    (tripRailType t).airfare_cost_dk = t.airfare_cost_dk := by
  unfold tripRailType; split <;> rfl

@[simp] theorem tripWeights_airfare_cost_dk (t : Trip) :
    (tripWeights t).airfare_cost_dk = t.airfare_cost_dk := by
  simp [tripWeights]

@[simp] theorem tripWeights_railtype (t : Trip) :
    (tripWeights t).railtype = t.railtype := by
  simp [tripWeights]

@[simp] theorem tripRMove_h_complete (t : Trip) :
    (tripRMove t).h_complete_weekdays = t.h_complete_weekdays := by
  unfold tripRMove; split <;> rfl

@[simp] theorem tripAutoToll_h_complete (t : Trip) :
    (tripAutoToll t).h_complete_weekdays = t.h_complete_weekdays := by
  unfold tripAutoToll; split <;> rfl

@[simp] theorem tripAutoDriverPark_h_complete (t : Trip) :
    (tripAutoDriverPark t).h_complete_weekdays = t.h_complete_weekdays := by
  unfold tripAutoDriverPark; split <;> rfl

@[simp] theorem tripTaxiType_h_complete (t : Trip) :
    (tripTaxiType t).h_complete_weekdays = t.h_complete_weekdays := by
  unfold tripTaxiType; split <;> rfl

@[simp] theorem tripAirType_h_complete (t : Trip) :
    (tripAirType t).h_complete_weekdays = t.h_complete_weekdays := by
  unfold tripAirType; split <;> rfl

@[simp] theorem tripAirfareCostDk_h_complete (t : Trip) :
    (tripAirfareCostDk t).h_complete_weekdays = t.h_complete_weekdays := by
  unfold tripAirfareCostDk; split <;> rfl

@[simp] theorem tripBusType_h_complete (t : Trip) :
    (tripBusType t).h_complete_weekdays = t.h_complete_weekdays := by
  unfold tripBusType; split <;> rfl

@[simp] theorem tripRailType_h_complete (t : Trip) :
    (tripRailType t).h_complete_weekdays = t.h_complete_weekdays := by
  unfold tripRailType; split <;> rfl

@[simp] theorem tripRMove_travelers (t : Trip) :
    (tripRMove t).travelers_hh = t.travelers_hh := by
  unfold tripRMove; split <;> rfl

@[simp] theorem tripAutoToll_travelers (t : Trip) :
    (tripAutoToll t).travelers_hh = t.travelers_hh := by
  unfold tripAutoToll; split <;> rfl

@[simp] theorem tripAutoDriverPark_travelers (t : Trip) :
    (tripAutoDriverPark t).travelers_hh = t.travelers_hh := by
  unfold tripAutoDriverPark; split <;> rfl

@[simp] theorem tripTaxiType_travelers (t : Trip) :
    (tripTaxiType t).travelers_hh = t.travelers_hh := by
  unfold tripTaxiType; split <;> rfl

@[simp] theorem tripAirType_travelers (t : Trip) :
    (tripAirType t).travelers_hh = t.travelers_hh := by
  unfold tripAirType; split <;> rfl

@[simp] theorem tripAirfareCostDk_travelers (t : Trip) :
    (tripAirfareCostDk t).travelers_hh = t.travelers_hh := by
  unfold tripAirfareCostDk; split <;> rfl

@[simp] theorem tripBusType_travelers (t : Trip) :
    (tripBusType t).travelers_hh = t.travelers_hh := by
  unfold tripBusType; split <;> rfl

@[simp] theorem tripRailType_travelers (t : Trip) :
    (tripRailType t).travelers_hh = t.travelers_hh := by
  unfold tripRailType; split <;> rfl

end TripsFrame

section TripsLemmas

/-- The auto-mode list is the non-taxi list followed by the taxi modes. -/
theorem auto_modes_eq_append : auto_modes = auto_nontaxi_modes ++ taxi_modes := rfl

/-- A mode in the non-taxi auto list is in the full auto list. -/
theorem catIsin_auto_of_nontaxi (v : Cat)
    (h : catIsin v auto_nontaxi_modes = true) : catIsin v auto_modes = true := by
  cases v with
  | none => simp [catIsin] at h
  | some s =>
    simp [catIsin, auto_modes, auto_nontaxi_modes] at h ⊢
    tauto

/-- A trip with no mode in the auto list has no mode in its non-taxi
sublist either. -/
theorem noModeIn_nontaxi_of_auto (t : Trip)
    (h : noModeIn t auto_modes = true) :
    noModeIn t auto_nontaxi_modes = true := by
  simp only [noModeIn, Bool.and_eq_true, Bool.not_eq_true'] at h ⊢
  obtain ⟨⟨⟨h1, h2⟩, h3⟩, h4⟩ := h
  refine ⟨⟨⟨?_, ?_⟩, ?_⟩, ?_⟩ <;>
    [skip; skip; skip; skip] <;>
    first
    | (cases hc : catIsin t.mode1 auto_nontaxi_modes with
       | false => rfl
       | true => rw [catIsin_auto_of_nontaxi _ hc] at h1; exact h1)
    | (cases hc : catIsin t.mode2 auto_nontaxi_modes with
       | false => rfl
       | true => rw [catIsin_auto_of_nontaxi _ hc] at h2; exact h2)
    | (cases hc : catIsin t.mode3 auto_nontaxi_modes with
       | false => rfl
       | true => rw [catIsin_auto_of_nontaxi _ hc] at h3; exact h3)
    | (cases hc : catIsin t.mode4 auto_nontaxi_modes with
       | false => rfl
       | true => rw [catIsin_auto_of_nontaxi _ hc] at h4; exact h4)

/-- No value in the range of the `taxitype` category mapping — and hence no
value the `taxitype` column can hold — is one of the two airfare pay
labels tested by the `airfare_cost_dk` recode. -/
theorem mapTaxitype_not_airfare (c : Option Int) :
    catIsin (mapTaxitype c)
      ["Personally paid the airfare cost", "Employer paid 100%"] = false := by
  cases c with
  | none => rfl
  | some k =>
    unfold mapTaxitype
    split <;> rfl

/-- Every `tripWeights` outcome, as a function of the eligibility
precondition and the household traveler count of the row. -/
theorem tripWeights_spec (x : Trip) :
    (tripWeights x).weight_person_trip =
      (if intGe1 x.h_complete_weekdays then some 1 else none) ∧
    (tripWeights x).weight_trip =
      (if intGe1 x.h_complete_weekdays then
        match x.travelers_hh with
        | some k => if 1 ≤ k ∧ k ≤ 10 then some (1 / (k : ℚ)) else some 1
        | none => some 1
      else none) := by
  unfold tripWeights tripWeightDivide tripWeightInit tripWeightPerson
  by_cases hge : intGe1 x.h_complete_weekdays = true
  · rcases hx : x.travelers_hh with _ | k
    · simp [hge, hx, intIn1to10]
    · by_cases hk : 1 ≤ k ∧ k ≤ 10
      · simp [hge, hx, intIn1to10, hk]
      · simp [hge, hx, intIn1to10, hk]
  · simp [hge]

end TripsLemmas

section TripsClaims

/-- C3: for every trip row with no mode in the auto-mode category set, the
output columns `toll_road`, `toll_road_express`, `driver` and
`parking_location` are all `"Not Applicable"`; the driver/parking recode,
keyed on the non-taxi subset of the auto modes, fires whenever no mode is
in the full auto-mode set. -/
theorem trips_no_auto_all_not_applicable (t : Trip)
    (h : noModeIn t auto_modes = true) :
    (tripsOut t).toll_road = na ∧ (tripsOut t).toll_road_express = na ∧
      (tripsOut t).driver = na ∧ (tripsOut t).parking_location = na := by
  have hA : noModeIn (tripRMove t) auto_modes = true := by simpa using h
  have hB : noModeIn (tripAutoToll (tripRMove t)) auto_nontaxi_modes = true := by
    simpa using noModeIn_nontaxi_of_auto t h
  have e1 : tripAutoToll (tripRMove t) =
      { tripRMove t with toll_no := na, toll_noexpress := na,
                         toll_express := na } := by
    unfold tripAutoToll; rw [if_pos hA]
  have e2 : tripAutoDriverPark (tripAutoToll (tripRMove t)) =
      { tripAutoToll (tripRMove t) with driver := na, parklocation := na } := by
    unfold tripAutoDriverPark; rw [if_pos hB]
  refine ⟨?_, ?_, ?_, ?_⟩ <;> simp [tripsOut, tripsRecode, e2] <;> simp [e1]

/-- Witness for `trips_no_auto_all_not_applicable` at a walk trip. -/
theorem trips_no_auto_all_not_applicable_witness :
    noModeIn sampleTripWalk auto_modes = true ∧
      ((tripsOut sampleTripWalk).toll_road = na ∧
        (tripsOut sampleTripWalk).toll_road_express = na ∧
        (tripsOut sampleTripWalk).driver = na ∧
        (tripsOut sampleTripWalk).parking_location = na) :=
  ⟨by decide, trips_no_auto_all_not_applicable sampleTripWalk (by decide)⟩

/-- C9: for every trip row whose `taxitype` cell carries a value produced
by the `taxitype` category mapping, the output column `airplane_cost_dk`
is `"Not Applicable"`: the recode guards on `taxitype` (not `airtype`)
against two airfare labels that no `taxitype` value can equal, so the
negated guard holds on every row. -/
theorem trips_airplane_cost_dk_always_na (t : Trip) (c : Option Int)
    (h : t.taxitype = mapTaxitype c) :
    (tripsOut t).airplane_cost_dk = na := by
  have hcases :
      (tripTaxiType (tripAutoDriverPark (tripAutoToll
        (tripRMove t)))).taxitype = t.taxitype ∨
      (tripTaxiType (tripAutoDriverPark (tripAutoToll
        (tripRMove t)))).taxitype = na := by
    unfold tripTaxiType
    split
    · right; rfl
    · left; simp
  have hcond :
      catIsin ((tripTaxiType (tripAutoDriverPark (tripAutoToll
          (tripRMove t)))).taxitype)
        ["Personally paid the airfare cost", "Employer paid 100%"] = false := by
    rcases hcases with hc | hc
    · rw [hc, h]; exact mapTaxitype_not_airfare c
    · rw [hc]; rfl
  have e : tripAirfareCostDk (tripAirType (tripTaxiType (tripAutoDriverPark
        (tripAutoToll (tripRMove t))))) =
      { tripAirType (tripTaxiType (tripAutoDriverPark (tripAutoToll
          (tripRMove t)))) with airfare_cost_dk := na } := by
    unfold tripAirfareCostDk
    rw [if_pos]
    simp [hcond]
  simp [tripsOut, tripsRecode, e]

/-- Witness for `trips_airplane_cost_dk_always_na` at a walk trip whose
`taxitype` is the mapped `NaN` label `"Missing"`. -/
theorem trips_airplane_cost_dk_always_na_witness :
    sampleTripWalk.taxitype = mapTaxitype none ∧
      (tripsOut sampleTripWalk).airplane_cost_dk = na :=
  ⟨by decide, trips_airplane_cost_dk_always_na sampleTripWalk none (by decide)⟩

/-- C10: for every trip row with no mode in the bus label list
`{"Bus", "Intercity bus", "Express bus/Rapid"}` — the list the recode
commented as the rail recode actually uses — the output column
`rail_pay_type` is `"Not Applicable"`; in particular this hits trips whose
only transit modes are rail modes. -/
theorem trips_rail_pay_type_na_without_bus_mode (t : Trip)
    (h : noModeIn t rail_modes = true) :
    (tripsOut t).rail_pay_type = na := by
  have hR : noModeIn (tripBusType (tripAirfareCostDk (tripAirType
      (tripTaxiType (tripAutoDriverPark (tripAutoToll (tripRMove t)))))))
        rail_modes = true := by
    simpa using h
  have e : tripRailType (tripBusType (tripAirfareCostDk (tripAirType
        (tripTaxiType (tripAutoDriverPark (tripAutoToll (tripRMove t))))))) =
      { tripBusType (tripAirfareCostDk (tripAirType (tripTaxiType
          (tripAutoDriverPark (tripAutoToll (tripRMove t)))))) with
            railtype := na } := by
    unfold tripRailType; rw [if_pos hR]
  simp [tripsOut, tripsRecode, e]

/-- Witness for `trips_rail_pay_type_na_without_bus_mode` at a trip whose
only modes are the rail modes `"Rail - Light"` and
`"San Diego Coaster Line"`. -/
theorem trips_rail_pay_type_na_without_bus_mode_witness :
    noModeIn sampleTripRail rail_modes = true ∧
      (tripsOut sampleTripRail).rail_pay_type = na :=
  ⟨by decide, trips_rail_pay_type_na_without_bus_mode sampleTripRail (by decide)⟩

/-- C1, counterexample to the claim as stated: on an eligible row
(`h_complete_weekdays = 1`) with 11 household travelers — outside
`range(1, 11)` — `weight_trip` is 1, not unset: the initialisation
`df.loc[df.h_complete_weekdays >= 1, "weight_trip"] = 1` already set it. -/
theorem trips_weight_trip_counterexample :
    intGe1 sampleTripEleven.h_complete_weekdays = true ∧
      intIn1to10 sampleTripEleven.travelers_hh = false ∧
      (tripsOut sampleTripEleven).weight_trip = some 1 ∧
      (tripsOut sampleTripEleven).weight_trip ≠ none := by
  refine ⟨by decide, by decide, by decide, by decide⟩

/-- C1, amended: `weight_person_trip` is 1 exactly on rows whose household
has at least one fully complete survey weekday and unset otherwise;
`weight_trip` on such rows is `1 / travelers_hh` when the traveler count
is in 1..10 and 1 otherwise (including a missing count), and it is unset
exactly when the precondition fails. -/
theorem trips_weights_characterisation (t : Trip) :
    (tripsOut t).weight_person_trip =
      (if intGe1 t.h_complete_weekdays then some 1 else none) ∧
    (tripsOut t).weight_trip =
      (if intGe1 t.h_complete_weekdays then
        match t.travelers_hh with
        | some k => if 1 ≤ k ∧ k ≤ 10 then some (1 / (k : ℚ)) else some 1
        | none => some 1
      else none) := by
  obtain ⟨h1, h2⟩ := tripWeights_spec (tripRailType (tripBusType
    (tripAirfareCostDk (tripAirType (tripTaxiType (tripAutoDriverPark
      (tripAutoToll (tripRMove t))))))))
  constructor
  · simpa [tripsOut, tripsRecode] using h1
  · simpa [tripsOut, tripsRecode] using h2

end TripsClaims

section PersonsFrame

@[simp] theorem personsNotEmployed_employment (p : Person) :
    (personsNotEmployed p).employment = p.employment := by
  unfold personsNotEmployed; split <;> rfl

@[simp] theorem personsEthnicity_employment (p : Person) :
    (personsEthnicity p).employment = p.employment := by
  unfold personsEthnicity; split <;> rfl

@[simp] theorem personsTransitPass_employment (p : Person) :
    (personsTransitPass p).employment = p.employment := by
  unfold personsTransitPass; split <;> rfl

@[simp] theorem personsMilitary_employment (p : Person) :
    (personsMilitary p).employment = p.employment := by
  unfold personsMilitary; split <;> rfl

@[simp] theorem personsTelecommute_employment (p : Person) :
    (personsTelecommute p).employment = p.employment := by
  unfold personsTelecommute; split <;> rfl

@[simp] theorem personsCommuteFreqJobType_employment (p : Person) :
    (personsCommuteFreqJobType p).employment = p.employment := by
  unfold personsCommuteFreqJobType; split <;> rfl

@[simp] theorem personsCommuteFreqBlank_employment (p : Person) :
    (personsCommuteFreqBlank p).employment = p.employment := by
  unfold personsCommuteFreqBlank; split <;> rfl

@[simp] theorem personsSubsidySpecify_employment (p : Person) :
    (personsSubsidySpecify p).employment = p.employment := by
  unfold personsSubsidySpecify; split <;> rfl

@[simp] theorem personsWorkParking_employment (p : Person) :
    (personsWorkParking p).employment = p.employment := by
  unfold personsWorkParking; split <;> rfl

@[simp] theorem personsEthnicity_military (p : Person) :
    (personsEthnicity p).military = p.military := by
  unfold personsEthnicity; split <;> rfl

@[simp] theorem personsTransitPass_military (p : Person) :
    (personsTransitPass p).military = p.military := by
  unfold personsTransitPass; split <;> rfl

end PersonsFrame

section PersonsLemmas

theorem blanks_personsNotEmployed {q : Person} (h : MilitaryBlankTargets q) :
    MilitaryBlankTargets (personsNotEmployed q) := by
  unfold personsNotEmployed MilitaryBlankTargets at *
  split <;> simp_all

theorem blanks_personsEthnicity {q : Person} (h : MilitaryBlankTargets q) :
    MilitaryBlankTargets (personsEthnicity q) := by
  unfold personsEthnicity MilitaryBlankTargets at *
  split <;> simp_all

theorem blanks_personsTransitPass {q : Person} (h : MilitaryBlankTargets q) :
    MilitaryBlankTargets (personsTransitPass q) := by
  unfold personsTransitPass MilitaryBlankTargets at *
  split <;> simp_all

theorem blanks_personsMilitary {q : Person} (h : MilitaryBlankTargets q) :
    MilitaryBlankTargets (personsMilitary q) := by
  unfold personsMilitary MilitaryBlankTargets at *
  split <;> simp_all

theorem blanks_personsTelecommute {q : Person} (h : MilitaryBlankTargets q) :
    MilitaryBlankTargets (personsTelecommute q) := by
  unfold personsTelecommute MilitaryBlankTargets at *
  split <;> simp_all

theorem blanks_personsCommuteFreqJobType {q : Person}
    (h : MilitaryBlankTargets q) :
    MilitaryBlankTargets (personsCommuteFreqJobType q) := by
  unfold personsCommuteFreqJobType MilitaryBlankTargets at *
  split <;> simp_all

theorem blanks_personsCommuteFreqBlank {q : Person}
    (h : MilitaryBlankTargets q) :
    MilitaryBlankTargets (personsCommuteFreqBlank q) := by
  unfold personsCommuteFreqBlank MilitaryBlankTargets at *
  split <;> simp_all

theorem blanks_personsSubsidySpecify {q : Person}
    (h : MilitaryBlankTargets q) :
    MilitaryBlankTargets (personsSubsidySpecify q) := by
  unfold personsSubsidySpecify MilitaryBlankTargets at *
  split <;> simp_all

theorem blanks_personsWorkParking {q : Person} (h : MilitaryBlankTargets q) :
    MilitaryBlankTargets (personsWorkParking q) := by
  unfold personsWorkParking MilitaryBlankTargets at *
  split <;> simp_all

end PersonsLemmas

section PersonsClaims

/-- C7: every person whose age category is `"Under 5 years old"` or
`"5-15 years"` has `employment_status = "Not Applicable"` in the output;
no later recode overwrites the value assigned by the age-16+ recode. -/
theorem persons_under16_employment_not_applicable (p : Person)
    (h : p.age = some "Under 5 years old" ∨ p.age = some "5-15 years") :
    (personsOut p).employment_status = na := by
  have hage : catIsin p.age ["Under 5 years old", "5-15 years"] = true := by
    rcases h with h | h <;> rw [h] <;> decide
  have h1 : (personsAge16 p).employment = na := by
    unfold personsAge16; rw [if_pos hage]
  simp [personsOut, personsRecode, h1]

/-- Witness for `persons_under16_employment_not_applicable` at a child. -/
theorem persons_under16_employment_not_applicable_witness :
    (samplePersonChild.age = some "Under 5 years old" ∨
      samplePersonChild.age = some "5-15 years") ∧
      (personsOut samplePersonChild).employment_status = na :=
  ⟨by decide,
   persons_under16_employment_not_applicable samplePersonChild (by decide)⟩

/-- C8: every person whose recoded military status is active duty (within
or outside the San Diego region) ends with `"Not Applicable"` in
occupation, industry, hours worked, commute frequency, commute mode, work
parking payment/cost-dk/ease, telecommute frequency and all
commute-subsidy columns: the military recode blanks them first, and the
later broader commute recodes (keying on `commute_freq` in
`{"Never", "Not Applicable"}` and on non-driving `commute_mode`) can only
re-assign the same `"Not Applicable"`, so source rule order is
preserved. -/
theorem persons_active_duty_blanks_civilian_fields (p : Person)
    (h : p.military = some "Active duty within the San Diego region" ∨
      p.military = some "Active duty outside of the San Diego region") :
    (personsOut p).occupation = na ∧ (personsOut p).industry = na ∧
      (personsOut p).hours_worked = na ∧
      (personsOut p).commute_frequency = na ∧
      (personsOut p).commute_mode = na ∧
      (personsOut p).work_parking_payment = na ∧
      (personsOut p).work_parking_cost_dk = na ∧
      (personsOut p).work_parking_ease = na ∧
      (personsOut p).telecommute_frequency = na ∧
      (personsOut p).commute_subsidy_none = na ∧
      (personsOut p).commute_subsidy_parking = na ∧
      (personsOut p).commute_subsidy_transit = na ∧
      (personsOut p).commute_subsidy_vanpool = na ∧
      (personsOut p).commute_subsidy_cash = na ∧
      (personsOut p).commute_subsidy_other = na ∧
      (personsOut p).commute_subsidy_specify = na := by
  have key : MilitaryBlankTargets (personsRecode p) := by
    unfold personsRecode
    by_cases hage : catIsin p.age ["Under 5 years old", "5-15 years"] = true
    · have t1 : MilitaryBlankTargets (personsAge16 p) := by
        unfold personsAge16
        rw [if_pos hage]
        exact ⟨rfl, rfl, rfl, rfl, rfl, rfl, rfl, rfl, rfl, rfl, rfl, rfl,
          rfl, rfl, rfl, rfl⟩
      exact blanks_personsWorkParking (blanks_personsSubsidySpecify
        (blanks_personsCommuteFreqBlank (blanks_personsCommuteFreqJobType
          (blanks_personsTelecommute (blanks_personsMilitary
            (blanks_personsTransitPass (blanks_personsEthnicity
              (blanks_personsNotEmployed t1))))))))
    · have e1 : personsAge16 p = p := by
        unfold personsAge16; rw [if_neg]; simpa using hage
      by_cases hemp : catEq p.employment "Not currently employed" = true
      · have t2 : MilitaryBlankTargets (personsNotEmployed (personsAge16 p)) := by
          rw [e1]
          unfold personsNotEmployed
          rw [if_pos hemp]
          exact ⟨rfl, rfl, rfl, rfl, rfl, rfl, rfl, rfl, rfl, rfl, rfl, rfl,
            rfl, rfl, rfl, rfl⟩
        exact blanks_personsWorkParking (blanks_personsSubsidySpecify
          (blanks_personsCommuteFreqBlank (blanks_personsCommuteFreqJobType
            (blanks_personsTelecommute (blanks_personsMilitary
              (blanks_personsTransitPass (blanks_personsEthnicity t2)))))))
      · have e2 : personsNotEmployed p = p := by
          unfold personsNotEmployed; rw [if_neg]; simpa using hemp
        have hmil : catIsin (personsTransitPass (personsEthnicity
            (personsNotEmployed (personsAge16 p)))).military
              ["Active duty within the San Diego region",
               "Active duty outside of the San Diego region"] = true := by
          rw [e1, e2, personsTransitPass_military, personsEthnicity_military]
          rcases h with h | h <;> rw [h] <;> decide
        have t5 : MilitaryBlankTargets (personsMilitary (personsTransitPass
            (personsEthnicity (personsNotEmployed (personsAge16 p))))) := by
          unfold personsMilitary
          rw [if_pos hmil]
          exact ⟨rfl, rfl, rfl, rfl, rfl, rfl, rfl, rfl, rfl, rfl, rfl, rfl,
            rfl, rfl, rfl, rfl⟩
        exact blanks_personsWorkParking (blanks_personsSubsidySpecify
          (blanks_personsCommuteFreqBlank (blanks_personsCommuteFreqJobType
            (blanks_personsTelecommute t5))))
  obtain ⟨k1, k2, k3, k4, k5, k6, k7, k8, k9, k10, k11, k12, k13, k14, k15,
    k16⟩ := key
  exact ⟨k1, k2, k3, k4, k5, k6, k7, k8, k9, k10, k11, k12, k13, k14, k15,
    k16⟩

/-- Witness for `persons_active_duty_blanks_civilian_fields` at an
employed active-duty person. -/
theorem persons_active_duty_blanks_civilian_fields_witness :
    (samplePersonMilitary.military =
        some "Active duty within the San Diego region" ∨
      samplePersonMilitary.military =
        some "Active duty outside of the San Diego region") ∧
      ((personsOut samplePersonMilitary).occupation = na ∧
        (personsOut samplePersonMilitary).industry = na ∧
        (personsOut samplePersonMilitary).hours_worked = na ∧
        (personsOut samplePersonMilitary).commute_frequency = na ∧
        (personsOut samplePersonMilitary).commute_mode = na ∧
        (personsOut samplePersonMilitary).work_parking_payment = na ∧
        (personsOut samplePersonMilitary).work_parking_cost_dk = na ∧
        (personsOut samplePersonMilitary).work_parking_ease = na ∧
        (personsOut samplePersonMilitary).telecommute_frequency = na ∧
        (personsOut samplePersonMilitary).commute_subsidy_none = na ∧
        (personsOut samplePersonMilitary).commute_subsidy_parking = na ∧
        (personsOut samplePersonMilitary).commute_subsidy_transit = na ∧
        (personsOut samplePersonMilitary).commute_subsidy_vanpool = na ∧
        (personsOut samplePersonMilitary).commute_subsidy_cash = na ∧
        (personsOut samplePersonMilitary).commute_subsidy_other = na ∧
        (personsOut samplePersonMilitary).commute_subsidy_specify = na) :=
  ⟨by decide,
   persons_active_duty_blanks_civilian_fields samplePersonMilitary (by decide)⟩

end PersonsClaims

section FilterLemmas

variable {α : Type}

theorem length_filter_le_of_imp (p q : α → Bool) (l : List α)
    (hpq : ∀ x, p x = true → q x = true) :
    (l.filter p).length ≤ (l.filter q).length := by
  induction l with
  | nil => simp
  | cons x xs ih =>
    rw [List.filter_cons, List.filter_cons]
    cases hp : p x
    · cases hq : q x
      · simpa using ih
      · simp only [if_pos rfl, if_neg]
        · exact Nat.le_succ_of_le ih
    · have hq := hpq x hp
      simp [hp, hq]
      exact ih

theorem length_filter_lt_of_mem (p q : α → Bool) (l : List α)
    (hpq : ∀ x, p x = true → q x = true) (a : α) (ha : a ∈ l)
    (hpa : p a = false) (hqa : q a = true) :
    (l.filter p).length < (l.filter q).length := by
  induction l with
  | nil => cases ha
  | cons x xs ih =>
    rw [List.filter_cons, List.filter_cons]
    rcases List.mem_cons.mp ha with rfl | hmem
    · simp [hpa, hqa]
      exact Nat.lt_succ_of_le (length_filter_le_of_imp p q xs hpq)
    · cases hp : p x
      · cases hq : q x
        · simp [hp, hq]
          exact ih hmem
        · simp [hp, hq]
          exact Nat.lt_succ_of_lt (ih hmem)
      · have hq := hpq x hp
        simp [hp, hq]
        exact ih hmem

end FilterLemmas

section LexLemmas

theorem lexLt_trans {k a b : Int × Int} (h1 : lexLt k a = true)
    (h2 : lexLt a b = true) : lexLt k b = true := by
  simp only [lexLt, Bool.or_eq_true, Bool.and_eq_true,
    decide_eq_true_eq] at h1 h2 ⊢
  rcases h1 with h1 | ⟨h1e, h1l⟩ <;> rcases h2 with h2 | ⟨h2e, h2l⟩
  · left; omega
  · left; omega
  · left; omega
  · right; exact ⟨by omega, by omega⟩

theorem lexLt_irrefl (a : Int × Int) : lexLt a a = false := by
  simp [lexLt]

end LexLemmas

section RemainingClaims

/-- C2: behaviour of `SurveyData.line_wkt` on a single line, for every
validity check and coordinate transformer: the vertex list is
de-duplicated over the whole sequence keeping first occurrences
(`distinctFirst` equals the recursive keep-first description and is
duplicate-free); with at least 2 distinct vertices the result is the
transformed line through them in order, with exactly 1 a transformed
point, with an empty input `none`; a geometry failing the validity check
gives `none` instead of an error. Concretely, `[(0,0), (0,0), (1,1)]`
yields the same geometry as `[(0,0), (1,1)]`, and a single-point list
yields a point geometry. -/
theorem line_wkt_behaviour :
    (∀ (α β : Type) [DecidableEq α] (v : Geometry β → Bool) (tr : α → β),
      line_wkt1 v tr ([] : List α) = none ∧
      ∀ line : List α,
        distinctFirst line = dedupFirstSpec line ∧
        (distinctFirst line).Nodup ∧
        line_wkt1 v tr line =
          match distinctFirst line with
          | [] => none
          | [p] =>
            if v (Geometry.point (tr p)) then some (Geometry.point (tr p))
            else none
          | ps =>
            if v (Geometry.lineString (ps.map tr)) then
              some (Geometry.lineString (ps.map tr))
            else none) ∧
    (∀ v : Geometry (ℤ × ℤ) → Bool,
      line_wkt1 v id [((0 : ℤ), (0 : ℤ)), (0, 0), (1, 1)] =
        line_wkt1 v id [((0 : ℤ), (0 : ℤ)), (1, 1)]) ∧
    (∀ v : Geometry (ℤ × ℤ) → Bool,
      line_wkt1 v id [((5 : ℤ), (7 : ℤ))] =
        if v (Geometry.point ((5 : ℤ), (7 : ℤ))) then
          some (Geometry.point ((5 : ℤ), (7 : ℤ)))
        else none) := by
  refine ⟨?_, ?_, ?_⟩
  · intro α β inst v tr
    refine ⟨rfl, ?_⟩
    intro line
    exact ⟨distinctFirst_eq_spec line, distinctFirst_nodup line,
      line_wkt1_characterisation v tr line⟩
  · intro v
    rw [line_wkt1_characterisation, line_wkt1_characterisation]
    have h1 : distinctFirst [((0 : ℤ), (0 : ℤ)), (0, 0), (1, 1)] =
        [((0 : ℤ), (0 : ℤ)), (1, 1)] := by decide
    have h2 : distinctFirst [((0 : ℤ), (0 : ℤ)), (1, 1)] =
        [((0 : ℤ), (0 : ℤ)), (1, 1)] := by decide
    rw [h1, h2]
  · intro v
    rw [line_wkt1_characterisation]
    have h1 : distinctFirst [((5 : ℤ), (7 : ℤ))] = [((5 : ℤ), (7 : ℤ))] := by
      decide
    rw [h1]
    rfl

/-- C4, counterexample to the claim as stated: pandas `groupby` sorts the
group keys (default `sort=True`), so `ngroup` numbers the distinct
`(household_id, vehicle_number)` pairs in ascending key order, not in
first-seen order: on input pairs `(2,1), (1,1)` the assigned keys are
`[2, 1]`, while first-seen enumeration would give `[1, 2]`. -/
theorem vehicles_first_seen_counterexample :
    vehicleIds [((2 : Int), (1 : Int)), (1, 1)] = [2, 1] ∧
      vehicleIdsFirstSeen [((2 : Int), (1 : Int)), (1, 1)] = [1, 2] ∧
      vehicleIds [((2 : Int), (1 : Int)), (1, 1)] ≠
        vehicleIdsFirstSeen [((2 : Int), (1 : Int)), (1, 1)] := by
  refine ⟨by decide, by decide, by decide⟩

/-- C4, amended: the `vehicle_id` surrogate key assigns integers starting
at 1 to distinct `(household_id, vehicle_number)` pairs in ascending
lexicographic key order (pandas `groupby(sort=True).ngroup() + 1`): a
lexicographically smaller key always gets a smaller id, and on the
claim's example input `(1,1), (1,2), (2,1)` — where first-seen order
coincides with sorted order — the assigned keys are `[1, 2, 3]`. -/
theorem vehicles_surrogate_key_sorted :
    (∀ (rows : List (Int × Int)) (a b : Int × Int), a ∈ rows → b ∈ rows →
      lexLt a b = true → keyRank rows a < keyRank rows b) ∧
    vehicleIds [((1 : Int), (1 : Int)), (1, 2), (2, 1)] = [1, 2, 3] := by
  constructor
  · intro rows a b ha _ hab
    unfold keyRank
    have haD : a ∈ distinctFirst rows := mem_distinctFirst.mpr ha
    have hlt := length_filter_lt_of_mem (fun k => lexLt k a)
      (fun k => lexLt k b) (distinctFirst rows)
      (fun x hx => lexLt_trans hx hab) a haD (lexLt_irrefl a) hab
    exact Nat.add_lt_add_right hlt 1
  · decide

/-- Witness for `vehicles_surrogate_key_sorted`: on the rows
`(2,1), (1,1)` the key `(1,1)` is smaller than `(2,1)` and gets the
smaller id. -/
theorem vehicles_surrogate_key_sorted_witness :
    ((1 : Int), (1 : Int)) ∈ [((2 : Int), (1 : Int)), (1, 1)] ∧
      keyRank [((2 : Int), (1 : Int)), (1, 1)] (1, 1) <
        keyRank [((2 : Int), (1 : Int)), (1, 1)] (2, 1) :=
  ⟨by decide,
   vehicles_surrogate_key_sorted.1 [((2 : Int), (1 : Int)), (1, 1)]
     (1, 1) (2, 1) (by decide) (by decide) (by decide)⟩

/-- C5, counterexample to the claim as stated: `df.dropna()` uses pandas'
default `how='any'`, so an occurrence row is dropped as soon as one field
of its group is empty, not only when every field is: a household whose
slot 1 has a mode but no other occurrence field yields no output row at
all, although slot 1 is not all-empty. -/
theorem border_trips_drop_counterexample :
    border_trips [sampleBorderPartial] = [] ∧
      rowAllEmpty (slotToLong 1 1 sampleBorderPartial.slot1) = false := by
  refine ⟨by decide, by decide⟩

/-- C5, amended: a long occurrence row is kept exactly when none of its
five mapped occurrence fields is empty (it is dropped as soon as any
field is empty, in particular when every field is); the surrogate key is
assigned by position only after the drop; and a household record with
only occurrence slot 2 fully populated yields exactly one output row,
for occurrence 2, with surrogate key 0. -/
theorem border_trips_reshape :
    (∀ (ws : List BorderWide) (r : BorderLong),
      r ∈ (borderLongRows ws).filter rowComplete ↔
        r ∈ borderLongRows ws ∧ rowComplete r = true) ∧
    (∀ ws : List BorderWide,
      (border_trips ws).map (fun o => o.border_trip_id) =
        List.range ((borderLongRows ws).filter rowComplete).length) ∧
    border_trips [sampleBorderSlot2Only] =
      [{ border_trip_id := 0
         household_id := 1
         trip_id := 2
         mode := some "My own vehicle (or motorcycle)"
         port_of_entry := some "San Ysidro (I-5/I-805) Port of Entry"
         purpose := some "Social (visit friends/family)"
         duration := some "Less than 1 day"
         party_size := some "2 persons total" }] := by
  refine ⟨?_, ?_, by decide⟩
  · intro ws r
    exact List.mem_filter
  · intro ws
    rw [border_trips, List.map_map]
    have h : ((fun o : BorderOut => o.border_trip_id) ∘ fun ir : Nat × BorderLong =>
        ({ border_trip_id := ir.1, household_id := ir.2.hhid,
           trip_id := ir.2.trip_id, mode := ir.2.mode,
           port_of_entry := ir.2.port_of_entry, purpose := ir.2.purpose,
           duration := ir.2.duration,
           party_size := ir.2.party_size } : BorderOut)) =
        Prod.fst := rfl
    rw [h, List.enum_map_fst]

/-- C6: in `SurveyData.day`, whenever the number of trips of a person-day
is known, `made_trips` is forced to `"Yes"` if it is positive and to
`"No"` if it is zero, whatever value `trips_yesno` reported. -/
theorem day_made_trips_follows_number_trips (d : Day) (n : Int)
    (h : d.num_trips = some n) :
    (0 < n → (dayOut d).made_trips = some "Yes") ∧
      (n = 0 → (dayOut d).made_trips = some "No") := by
  constructor
  · intro hn
    have hgt : intGt0 d.num_trips = true := by simp [intGt0, h, hn]
    have heq : intEq0 d.num_trips = false := by
      simp only [intEq0, h, decide_eq_false_iff_not]
      omega
    simp [dayOut, dayMadeTrips, hgt, heq]
  · intro hn
    have heq : intEq0 d.num_trips = true := by simp [intEq0, h, hn]
    simp [dayOut, dayMadeTrips, heq]

/-- Witness for `day_made_trips_follows_number_trips`: the derived value
wins over the conflicting reported value in both directions. -/
theorem day_made_trips_follows_number_trips_witness :
    (sampleDayConflictYes.num_trips = some 3 ∧
      mapTripsYesno sampleDayConflictYes.trips_yesno = some "No" ∧
      (dayOut sampleDayConflictYes).made_trips = some "Yes") ∧
    (sampleDayConflictNo.num_trips = some 0 ∧
      mapTripsYesno sampleDayConflictNo.trips_yesno = some "Yes" ∧
      (dayOut sampleDayConflictNo).made_trips = some "No") :=
  ⟨⟨by decide, by decide,
    (day_made_trips_follows_number_trips sampleDayConflictYes 3
      (by decide)).1 (by decide)⟩,
   ⟨by decide, by decide,
    (day_made_trips_follows_number_trips sampleDayConflictNo 0
      (by decide)).2 (by decide)⟩⟩

end RemainingClaims

end HHTS
